import Mathlib

/-!
Verification of the Escapade Locale query-orchestration core.

The definitions below are a shallow embedding of the two source files:

* `src/App.tsx` — the orchestration (`handleSearch`), the prompt template,
  the retrieval configuration, and the grounding-chunk rendering loop
  (lines 240-279) that maps raw chunks to source links.
* `src/services/geminiService.ts` — the typed search path
  (`searchActivities`).

JavaScript optional chaining is modelled with `Option.bind`, the JS `||`
operator on strings (empty string is falsy) with `jsOrString`, and the
loosely-typed response payloads with `Option` fields.  React state updates
inside `handleSearch` are modelled as explicit record updates on `AppState`,
split into the synchronous prefix (`startSearch`, lines 59-61, before the
`await`) and the settlement (`settleSearch`, lines 96-106, the code after
the invoker resolves plus the `catch`/`finally` blocks).
-/

namespace EscapadeLocale

/-- Fallback itinerary text, App.tsx line 96. -/
def fallbackText : String :=
  "Désolé, je n\x27ai pas trouvé d\x27activités pour cette période."

/-- User-facing error message, App.tsx line 103. -/
def errorText : String :=
  "Une erreur est survenue lors de la recherche. Veuillez réessayer."

/-- Placeholder used when the destination is empty, App.tsx line 66. -/
def currentPositionPlaceholder : String := "ma position actuelle"

/-- JavaScript `a || b` on an optional string value: `undefined` and the
empty string are falsy, any other string is returned unchanged. -/
def jsOrString (a : Option String) (b : String) : String :=
  match a with
  | none => b
  | some s => if s = "" then b else s

/-! ## External-response data model (loosely typed payloads) -/

/-- Payload of `chunk.maps` as the rendering loop accesses it: both
`title` and `uri` may be absent on the untyped object. -/
structure MapsPayload where
  title : Option String
  uri : Option String
deriving DecidableEq, Repr

/-- Payload of `chunk.web`; same loose shape. -/
structure WebPayload where
  title : Option String
  uri : Option String
deriving DecidableEq, Repr

/-- One element of `groundingMetadata.groundingChunks`: an untyped object
that may carry a `maps` payload, a `web` payload, both, or neither. -/
structure RawGroundingChunk where
  maps : Option MapsPayload
  web : Option WebPayload
deriving DecidableEq, Repr

structure GroundingMetadata where
  groundingChunks : Option (List RawGroundingChunk)
deriving DecidableEq, Repr

structure Candidate where
  groundingMetadata : Option GroundingMetadata
deriving DecidableEq, Repr

/-- The external service response as `handleSearch` reads it:
`response.text` and `response.candidates` may each be absent. -/
structure ExternalResponse where
  text : Option String
  candidates : Option (List Candidate)
deriving DecidableEq, Repr

/-! ## Normalized result shape -/

inductive SourceKind where
  | place
  | web
deriving DecidableEq, Repr

/-- One rendered source link: kind (map pin vs search icon), the displayed
title and the href.  Title and uri stay optional because the rendering
loop passes `chunk.maps.title` / `chunk.maps.uri` through without
checking them (App.tsx lines 245, 254, 263, 272). -/
structure SourceReference where
  kind : SourceKind
  title : Option String
  uri : Option String
deriving DecidableEq, Repr

/-- Embeds one iteration of `groundingChunks.map` (App.tsx lines 240-279):
`if (chunk.maps) { place link } else if (chunk.web) { web link }
else return null`.  A `null` render is modelled as `none`. -/
def normalizeChunk (c : RawGroundingChunk) : Option SourceReference :=
  match c.maps with
  | some m => some ⟨SourceKind.place, m.title, m.uri⟩
  | none =>
    match c.web with
    | some w => some ⟨SourceKind.web, w.title, w.uri⟩
    | none => none

/-- The whole rendering loop: chunks whose branch returns `null` disappear
from the rendered list, the rest keep response order. -/
def normalizeChunks (cs : List RawGroundingChunk) : List SourceReference :=
  cs.filterMap normalizeChunk

/-- Embeds App.tsx line 99:
`response.candidates?.[0]?.groundingMetadata?.groundingChunks || []`.
Each `?.` link is one `Option.bind`; the trailing `|| []` is `getD []`
(a present empty array is truthy-equivalent to the default here). -/
def extractChunks (r : ExternalResponse) : List RawGroundingChunk :=
  ((((r.candidates.bind List.head?).bind
      Candidate.groundingMetadata).bind
      GroundingMetadata.groundingChunks).getD [])

inductive OutcomeStatus where
  | success
  | error
deriving DecidableEq, Repr

structure SearchOutcome where
  status : OutcomeStatus
  itineraryText : String
  sources : List SourceReference
deriving DecidableEq, Repr

/-- The normalizer: the success path of `handleSearch` (App.tsx lines
96-100) packaged as one total function — text with fallback substitution,
plus the rendered source list.  Totality of this Lean function is the
never-throws property: every field access is defensive in the source
(optional chaining and `||`), so no response shape can raise. -/
def normalize (r : ExternalResponse) : SearchOutcome :=
  { status := OutcomeStatus.success
    itineraryText := jsOrString r.text fallbackText
    sources := normalizeChunks (extractChunks r) }

/-! ## Trip query builder: prompt and retrieval configuration -/

/-- The pieces of the template literal at App.tsx lines 66-78, in source
order.  Interpolation slots sit between consecutive pieces:
`p1 ${destination-or-placeholder} p2 ${startDate} p3 ${endDate} p4
${radius} p5 ${startDate} p3 ${endDate} p6`. -/
def promptP1 : String := "Je planifie un voyage à "

def promptP2 : String := " du "

def promptP3 : String := " au "

def promptP4 : String :=
  ".\n      Je souhaite découvrir les activités suivantes dans un rayon de "

def promptP5 : String :=
  "km :\n      1. Marchés (locaux, artisanaux)\n      2. Brocantes et vide-greniers (consulte spécifiquement vide-greniers.org pour cette zone et ces dates)\n      3. Événements locaux et culturels (consulte les agendas municipaux et les sites des mairies de la zone)\n      4. Escape games\n      5. Fêtes de village et festivals\n      6. Recycleries et ressourceries\n\n      Organise ta réponse jour par jour du "

def promptP6 : String :=
  ".\n      Pour chaque jour, liste les événements spécifiques ou les lieux ouverts qui correspondent à mes critères.\n      Sois précis sur les lieux, les horaires et cite tes sources si possible (liens vers vide-greniers.org ou sites de mairies).\n      Utilise des titres clairs pour chaque jour."

/-- `${location || 'ma position actuelle'}`: the empty destination is
falsy, so it is replaced by the placeholder. -/
def destinationText (location : String) : String :=
  if location = "" then currentPositionPlaceholder else location

/-- The full prompt of App.tsx lines 66-78 as one concatenation. -/
def buildPrompt (location startDate endDate : String) (radius : Nat) : String :=
  promptP1 ++ destinationText location ++ promptP2 ++ startDate ++ promptP3 ++
    endDate ++ promptP4 ++ toString radius ++ promptP5 ++ startDate ++
    promptP3 ++ endDate ++ promptP6

/-- User coordinates as held in component state (`userCoords`).  The
source stores IEEE floats; no arithmetic is ever performed on them (they
are only copied into the configuration), so an integer carrier is an
adequate stand-in. -/
structure Coords where
  lat : Int
  lng : Int
deriving DecidableEq, Repr

structure LatLng where
  latitude : Int
  longitude : Int
deriving DecidableEq, Repr

inductive Tool where
  | googleMaps
  | googleSearch
deriving DecidableEq, Repr

structure RetrievalConfig where
  latLng : Option LatLng
deriving DecidableEq, Repr

structure GenConfig where
  tools : List Tool
  retrievalConfig : RetrievalConfig
deriving DecidableEq, Repr

/-- The `config` object of the `generateContent` call, App.tsx lines
83-93: both tools are always requested; `latLng` is
`userCoords ? { latitude, longitude } : undefined`. -/
def buildConfig (userCoords : Option Coords) : GenConfig :=
  { tools := [Tool.googleMaps, Tool.googleSearch]
    retrievalConfig :=
      { latLng := userCoords.map fun c => ⟨c.lat, c.lng⟩ } }

/-! ## Orchestration state -/

/-- The component state touched by `handleSearch`: `loading`, `result`
and `groundingChunks` (App.tsx lines 38-40). -/
structure AppState where
  loading : Bool
  result : Option String
  groundingChunks : List RawGroundingChunk
deriving DecidableEq, Repr

/-- Synchronous prefix of `handleSearch` (lines 59-61), executed before
the first `await`: set loading, clear the previous result, clear the
previous chunk list. -/
def startSearch (s : AppState) : AppState :=
  { s with loading := true, result := none, groundingChunks := [] }

/-- An invoker fault (anything the `try` block throws); the `catch` never
inspects it beyond logging, so its carrier is opaque text. -/
abbrev Fault := String

/-- Settlement of the search (lines 96-106): on success, publish the text
(with fallback substitution) and the extracted chunks; on any fault, the
`catch` publishes the fixed error message and leaves `groundingChunks`
untouched; the `finally` clears `loading` on both paths. -/
def settleSearch (s : AppState) (r : Except Fault ExternalResponse) : AppState :=
  match r with
  | Except.ok resp =>
    { s with
        result := some (jsOrString resp.text fallbackText)
        groundingChunks := extractChunks resp
        loading := false }
  | Except.error _ =>
    { s with result := some errorText, loading := false }

/-- One whole `handleSearch` cycle, parameterized by how the awaited
invoker settles.  It is a total function into `AppState`: no fault
escapes it. -/
def handleSearch (s : AppState) (r : Except Fault ExternalResponse) : AppState :=
  settleSearch (startSearch s) r

/-! ## Submission events and the single-flight discipline

The submit button carries `disabled={loading}` (App.tsx line 193), so the
browser rejects a form submission while a search is in flight.  The event
system below models exactly that: a `submit` event is a no-op when
`loading` is set, and otherwise starts the search and issues one
invocation; a `settle` event delivers the invoker result and retires the
invocation.  `outstanding` counts invocations issued but not settled. -/

inductive Event where
  | submit
  | settle (r : Except Fault ExternalResponse)

structure SysState where
  app : AppState
  outstanding : Nat
deriving DecidableEq, Repr

def stepEvent (s : SysState) : Event → SysState
  | Event.submit =>
    if s.app.loading then s
    else { app := startSearch s.app, outstanding := s.outstanding + 1 }
  | Event.settle r =>
    { app := settleSearch s.app r, outstanding := s.outstanding - 1 }

def runEvents (s : SysState) (es : List Event) : SysState :=
  es.foldl stepEvent s

/-- Initial component state: not loading, no result, no chunks, nothing
in flight. -/
def initState : SysState :=
  { app := { loading := false, result := none, groundingChunks := [] }
    outstanding := 0 }

/-! ## The typed search path (`src/services/geminiService.ts`) -/

inductive ActivityType where
  | market
  | flea_market
  | escape_game
  | festival
  | recycling
  | other
deriving DecidableEq, Repr

structure Activity where
  id : String
  name : String
  type : ActivityType
  description : String
  location : String
  date : Option String
  link : Option String
deriving DecidableEq, Repr

structure SearchParams where
  location : String
  startDate : String
  endDate : String
  radius : Nat
  lat : Option Int
  lng : Option Int
deriving DecidableEq, Repr

/-- `searchActivities` (geminiService.ts lines 22-55): awaits the
external call and then returns the literal empty array, ignoring the
response entirely.  A rejected await propagates as the fault. -/
def searchActivities (_ps : SearchParams)
    (invokeResult : Except Fault ExternalResponse) :
    Except Fault (List Activity) :=
  match invokeResult with
  | Except.error f => Except.error f
  | Except.ok _ => Except.ok ([] : List Activity)

/-! ## Substring containment -/

/-- `sub` occurs contiguously inside `s`. -/
def containsStr (s sub : String) : Prop :=
  ∃ a b : String, s = a ++ (sub ++ b)

/-! ## Single-flight invariant -/

/-- Exactly one invocation is outstanding while `loading` is set, and
none otherwise. -/
def flightInvariant (s : SysState) : Prop :=
  s.outstanding = if s.app.loading then 1 else 0

theorem stepEvent_flightInvariant (s : SysState) (e : Event)
    (h : flightInvariant s) : flightInvariant (stepEvent s e) := by
  cases e with
  | submit =>
    by_cases hl : s.app.loading = true
    · simpa [stepEvent, hl] using h
    · simp only [Bool.not_eq_true] at hl
      simp [flightInvariant, hl] at h
      simp [flightInvariant, stepEvent, hl, startSearch, h]
  | settle r =>
    by_cases hl : s.app.loading = true
    · simp [flightInvariant, hl] at h
      cases r <;> simp [flightInvariant, stepEvent, settleSearch, h]
    · simp only [Bool.not_eq_true] at hl
      simp [flightInvariant, hl] at h
      cases r <;> simp [flightInvariant, stepEvent, settleSearch, h]

theorem runEvents_flightInvariant (es : List Event) :
    flightInvariant (runEvents initState es) := by
  suffices h : ∀ s, flightInvariant s → flightInvariant (runEvents s es) from
    h initState (by simp [flightInvariant, initState])
  induction es with
  | nil => intro s hs; simpa [runEvents] using hs
  | cons e es ih =>
    intro s hs
    simp only [runEvents, List.foldl_cons] at ih ⊢
    exact ih _ (stepEvent_flightInvariant s e hs)

/-! ## Concrete chunks for the chunk-mapping scenario -/

def c1ChunkA : RawGroundingChunk := ⟨some ⟨some "A", some "uriA"⟩, none⟩

def c1ChunkB : RawGroundingChunk := ⟨none, some ⟨some "B", some "uriB"⟩⟩

def c1ChunkMalformed : RawGroundingChunk := ⟨none, none⟩

def c1ChunkC : RawGroundingChunk := ⟨some ⟨some "C", none⟩, none⟩

def c1Response : ExternalResponse :=
  ⟨some "texte",
    some [⟨some ⟨some [c1ChunkA, c1ChunkB, c1ChunkMalformed, c1ChunkC]⟩⟩]⟩

/-! ## Claim theorems -/

/-- Claim C1, as stated, is false on the code: for the chunk list
`[placeChunk(A), webChunk(B), malformed, placeChunk(C, no-uri)]` the
rendering loop does NOT drop the URI-less place chunk — it renders a
third place link whose href is absent — so the sources are not exactly
`[A, B]`. -/
theorem c1_counterexample :
    (normalize c1Response).sources ≠
      [⟨SourceKind.place, some "A", some "uriA"⟩,
       ⟨SourceKind.web, some "B", some "uriB"⟩] := by
  decide

/-- Claim C1 amended: for every response whose grounding-chunk list is
`[placeChunk(A), webChunk(B), malformed, placeChunk(C, no-uri)]`,
normalization produces `[A, B, C]` in that order, where `C` is a place
reference with an absent URI: chunks matching neither tagged shape are
dropped, but chunks with a missing URI are kept (with no URI), not
dropped. -/
theorem c1_amended (r : ExternalResponse) (tA tB tC : Option String)
    (uA uB : String)
    (h : extractChunks r =
      [⟨some ⟨tA, some uA⟩, none⟩, ⟨none, some ⟨tB, some uB⟩⟩,
       ⟨none, none⟩, ⟨some ⟨tC, none⟩, none⟩]) :
    (normalize r).sources =
      [⟨SourceKind.place, tA, some uA⟩, ⟨SourceKind.web, tB, some uB⟩,
       ⟨SourceKind.place, tC, none⟩] := by
  simp [normalize, normalizeChunks, h, normalizeChunk]

/-- Witness for `c1_amended` at the concrete scenario response. -/
theorem c1_amended_witness :
    (normalize c1Response).sources =
      [⟨SourceKind.place, some "A", some "uriA"⟩,
       ⟨SourceKind.web, some "B", some "uriB"⟩,
       ⟨SourceKind.place, some "C", none⟩] :=
  c1_amended c1Response (some "A") (some "B") (some "C") "uriA" "uriB" rfl

/-- Claim C2, as stated, is false on the code: a response that is missing
`candidates` but carries a top-level text keeps that text — the outcome
is not the fallback string, so the claimed conjunction fails on one of
the listed response shapes. -/
theorem c2_counterexample :
    ¬ ((normalize ⟨some "Jour 1", none⟩).itineraryText = fallbackText ∧
       (normalize ⟨some "Jour 1", none⟩).sources = []) := by
  decide

/-- Claim C2 amended: normalization always returns a success outcome and
never throws; a missing top-level text yields the fallback itinerary
text, and a candidate/metadata/chunk chain absent at any level yields an
empty sources sequence — but the two substitutions are independent, not
joint consequences of any single missing field. -/
theorem c2_amended (r : ExternalResponse) :
    (normalize r).status = OutcomeStatus.success ∧
    (r.text = none → (normalize r).itineraryText = fallbackText) ∧
    (((r.candidates.bind List.head?).bind
        Candidate.groundingMetadata).bind
        GroundingMetadata.groundingChunks = none →
      (normalize r).sources = []) := by
  refine ⟨rfl, ?_, ?_⟩
  · intro h
    simp [normalize, jsOrString, h]
  · intro h
    simp [normalize, normalizeChunks, extractChunks, h]

/-- Witness for `c2_amended` at the fully absent response. -/
theorem c2_amended_witness :
    (normalize ⟨none, none⟩).status = OutcomeStatus.success ∧
    (normalize ⟨none, none⟩).itineraryText = fallbackText ∧
    (normalize ⟨none, none⟩).sources = [] := by
  obtain ⟨h1, h2, h3⟩ := c2_amended ⟨none, none⟩
  exact ⟨h1, h2 rfl, h3 rfl⟩

/-- Claim C3: the retrieval configuration carries a location bias exactly
when coordinates are present, and always requests both grounding tools
(geographic-place and web-search). -/
theorem c3_config_gating (userCoords : Option Coords) :
    (buildConfig userCoords).retrievalConfig.latLng.isSome =
      userCoords.isSome ∧
    (buildConfig userCoords).tools = [Tool.googleMaps, Tool.googleSearch] := by
  cases userCoords <;> simp [buildConfig]

/-- Claim C4: every invoker fault is absorbed by the orchestration
(`handleSearch` is a total function into `AppState`, so no fault
propagates) and produces the failed outcome: exactly the one fixed error
message, an empty source list, and loading cleared — never a mixed
partial-success state. -/
theorem c4_fault_boundary (s : AppState) (f : Fault) :
    (handleSearch s (Except.error f)).result = some errorText ∧
    (handleSearch s (Except.error f)).groundingChunks = [] ∧
    (handleSearch s (Except.error f)).loading = false := by
  simp [handleSearch, startSearch, settleSearch]

/-- Claim C5: for every trip query the built prompt contains the
destination (or the current-position placeholder when it is empty), both
dates, and the radius as substrings; `buildPrompt` is total by
construction. -/
theorem c5_prompt_completeness (location startDate endDate : String)
    (radius : Nat) :
    containsStr (buildPrompt location startDate endDate radius)
      (if location = "" then currentPositionPlaceholder else location) ∧
    containsStr (buildPrompt location startDate endDate radius) startDate ∧
    containsStr (buildPrompt location startDate endDate radius) endDate ∧
    containsStr (buildPrompt location startDate endDate radius)
      (toString radius) := by
  refine
    ⟨⟨promptP1,
        promptP2 ++ startDate ++ promptP3 ++ endDate ++ promptP4 ++
          toString radius ++ promptP5 ++ startDate ++ promptP3 ++ endDate ++
          promptP6, ?_⟩,
      ⟨promptP1 ++ destinationText location ++ promptP2,
        promptP3 ++ endDate ++ promptP4 ++ toString radius ++ promptP5 ++
          startDate ++ promptP3 ++ endDate ++ promptP6, ?_⟩,
      ⟨promptP1 ++ destinationText location ++ promptP2 ++ startDate ++
          promptP3,
        promptP4 ++ toString radius ++ promptP5 ++ startDate ++ promptP3 ++
          endDate ++ promptP6, ?_⟩,
      ⟨promptP1 ++ destinationText location ++ promptP2 ++ startDate ++
          promptP3 ++ endDate ++ promptP4,
        promptP5 ++ startDate ++ promptP3 ++ endDate ++ promptP6, ?_⟩⟩ <;>
    simp [buildPrompt, destinationText, String.append_assoc]

/-- Claim C6: on every submission the synchronous prefix of the handler,
run before any asynchronous work, clears the displayed result and the
displayed source-chunk list. -/
theorem c6_clears_before_async (s : AppState) :
    (startSearch s).result = none ∧ (startSearch s).groundingChunks = [] := by
  simp [startSearch]

/-- Claim C7: at most one invocation is ever outstanding along any event
trace from the initial state, and a submission arriving while the state
is Searching (loading set, submit button disabled) is rejected — it
changes nothing and issues no second invocation. -/
theorem c7_single_flight (es : List Event) (s : SysState)
    (h : s.app.loading = true) :
    (runEvents initState es).outstanding ≤ 1 ∧
    stepEvent s Event.submit = s := by
  constructor
  · have hinv := runEvents_flightInvariant es
    unfold flightInvariant at hinv
    rw [hinv]
    split <;> simp
  · simp [stepEvent, h]

/-- Witness for `c7_single_flight` at a concrete loading state and a
one-submission trace. -/
theorem c7_single_flight_witness :
    (({ app := { loading := true, result := none, groundingChunks := [] },
        outstanding := 1 } : SysState)).app.loading = true ∧
    ((runEvents initState [Event.submit]).outstanding ≤ 1 ∧
      stepEvent
        { app := { loading := true, result := none, groundingChunks := [] },
          outstanding := 1 } Event.submit =
        { app := { loading := true, result := none, groundingChunks := [] },
          outstanding := 1 }) :=
  ⟨rfl, c7_single_flight [Event.submit] _ rfl⟩

/-- Claim C8: the typed search path resolves to the empty activity list
for every input, and its resolved value is independent of the external
response it awaited. -/
theorem c8_typed_path_empty (ps : SearchParams) (r1 r2 : ExternalResponse) :
    searchActivities ps (Except.ok r1) = Except.ok ([] : List Activity) ∧
    searchActivities ps (Except.ok r1) = searchActivities ps (Except.ok r2) := by
  simp [searchActivities]

/-- Claim C9: a chunk carrying both a maps payload and a web payload is
classified as a place reference (the maps shape is tested first), and the
web payload never influences the result. -/
theorem c9_place_priority (m : MapsPayload) (w w' : WebPayload) :
    normalizeChunk ⟨some m, some w⟩ =
      some ⟨SourceKind.place, m.title, m.uri⟩ ∧
    normalizeChunk ⟨some m, some w⟩ = normalizeChunk ⟨some m, some w'⟩ := by
  simp [normalizeChunk]

/-- Claim C10: when the top-level text is present but empty, the
published itinerary is the (non-empty) fallback message, exactly as when
the text is absent: the substitution fires on any falsy text value. -/
theorem c10_empty_text_fallback (cands : Option (List Candidate)) :
    (normalize ⟨some "", cands⟩).itineraryText = fallbackText ∧
    (normalize ⟨none, cands⟩).itineraryText = fallbackText ∧
    fallbackText ≠ "" := by
  refine ⟨by simp [normalize, jsOrString], rfl, by decide⟩

end EscapadeLocale
